import Mathlib

/-!
Verification of micro-tests.h (header-only C testing framework).

Shallow embedding notes:
- C strings (suite/test names, argv entries) are modelled as lists of
  bytes (List Nat); a C string has no interior NUL, so the list holds
  the bytes before the terminator.  Reading past the terminator is not
  representable: all functions recurse structurally on the lists.
- The MicroTest descriptor mirrors the packed struct in micro-tests.h;
  its function pointer is modelled by the (deterministic) return value
  of the callback, which is all the runners observe.
- The catalog region delimited by __micro_tests_start/__micro_tests_stop
  is modelled as a List MicroTest; the element count
  (stop - start) / sizeof(MicroTest) is the list length.  Slots may have
  an arbitrary marker, modelling link-time padding.
- printf/fprintf output is modelled as a list of OutLine values carrying
  the data that is formatted into each status line; fixed banner/help
  text is collapsed into dedicated constructors.
-/

/-- Bytes of a C string literal (ASCII). -/
def cstr (s : String) : List Nat :=
  s.data.map Char.toNat

/-- The validity sentinel 0xDeadBeaf written into MicroTest.marker by the
TEST registration macro. -/
def SENTINEL : Nat := 0xDeadBeaf

/-- One test descriptor, as laid out in the .micro_tests section.  The
field ret models the value returned by function_pointer() when called
(callbacks are deterministic: no shared state, no randomness). -/
structure MicroTest where
  marker : Nat
  test_suite : List Nat
  test_name : List Nat
  function_name : List Nat
  file_name : List Nat
  line_number : Nat
  ret : Int
  deriving DecidableEq, Repr, Inhabited

/-- The MicroTests settings record (run configuration). -/
structure MicroTests where
  run_suite : Option (List Nat)
  run_test : Option (List Nat)
  run_multithreaded : Bool
  thread_number : Int
  show_list : Bool
  print_banner : Bool
  print_help : Bool
  debug : Bool
  quiet : Bool
  deriving DecidableEq, Repr

/-- Default settings installed at the top of micro_tests_parse_args. -/
def micro_tests_defaults : MicroTests :=
  { run_suite := none
    run_test := none
    run_multithreaded := false
    thread_number := 4
    show_list := false
    print_banner := true
    print_help := false
    debug := false
    quiet := false }

/-- One emitted line of output.  failed lines go to stderr, every other
constructor models a stdout line. -/
inductive OutLine where
  | failed (suite name : List Nat)
  | ok (suite name : List Nat)
  | entry (suite name : List Nat)
  | summary (count : Int) (singular : Bool)
  | banner
  | help
  deriving DecidableEq, Repr

/-- Whether an output line is written to the standard error stream. -/
def OutLine.to_stderr : OutLine → Bool
  | OutLine.failed _ _ => true
  | _ => false

/-- Embedding of _micro_tests_strcmp: walk both strings while both
have bytes left; on the first differing byte return 1 or -1; at the end
return 0 iff both strings ended together, else 1. -/
def _micro_tests_strcmp : List Nat → List Nat → Int
  | c1 :: s1, c2 :: s2 =>
    if c1 ≠ c2 then (if c1 > c2 then 1 else -1)
    else _micro_tests_strcmp s1 s2
  | [], [] => 0
  | _, _ => 1

/-- The inline validity-and-filter check shared by _micro_tests_run,
_micro_tests_get_next_test and micro_tests_show_list: marker equals the
sentinel, and each set filter compares equal (strcmp == 0) to the
corresponding descriptor name. -/
def _micro_tests_should_run (mt : MicroTests) (t : MicroTest) : Bool :=
  (t.marker == SENTINEL) &&
  (match mt.run_suite with
   | none => true
   | some s => _micro_tests_strcmp s t.test_suite == 0) &&
  (match mt.run_test with
   | none => true
   | some s => _micro_tests_strcmp s t.test_name == 0)

/-- Digit-accumulating loop of atoi. -/
def _micro_tests_atoi_digits : List Nat → Int → Int
  | c :: rest, acc =>
    if 48 ≤ c && c ≤ 57 then
      _micro_tests_atoi_digits rest (acc * 10 + (Int.ofNat c - 48))
    else acc
  | [], acc => acc

/-- C isspace in the default locale: space and the characters 9..13. -/
def _micro_tests_isspace (c : Nat) : Bool :=
  c == 32 || (9 ≤ c && c ≤ 13)

/-- Embedding of atoi(3) as used by micro_tests_parse_args: skip leading whitespace,
an optional sign, then the value of the leading digit run (0 when there
are no leading digits). -/
def atoi (s : List Nat) : Int :=
  match s.dropWhile _micro_tests_isspace with
  | c :: rest =>
    if c == 43 then _micro_tests_atoi_digits rest 0
    else if c == 45 then - _micro_tests_atoi_digits rest 0
    else _micro_tests_atoi_digits (c :: rest) 0
  | [] => 0

/-- Result of a whole runner invocation: return value, the list of
catalog indices whose callback was invoked (in invocation order), and
the emitted output lines. -/
structure RunRes where
  ret : Int
  executed : List Nat
  lines : List OutLine
  deriving DecidableEq, Repr

/-- Loop body of _micro_tests_run: iterate the catalog slots carrying
the slot index i and the accumulator out; for each slot passing the
validity-and-filter check, invoke the callback, emit the status line
(FAILED to stderr when the return is negative, OK unless quiet
otherwise), and add the return value to out (out += ret, as in the
source). -/
def _micro_tests_run_loop (mt : MicroTests) :
    List MicroTest → Nat → Int → Int × List Nat × List OutLine
  | [], _, out => (out, [], [])
  | t :: rest, i, out =>
    if _micro_tests_should_run mt t then
      let line : List OutLine :=
        if t.ret < 0 then [OutLine.failed t.test_suite t.test_name]
        else if mt.quiet then [] else [OutLine.ok t.test_suite t.test_name]
      let r := _micro_tests_run_loop mt rest (i + 1) (out + t.ret)
      (r.1, i :: r.2.1, line ++ r.2.2)
    else
      _micro_tests_run_loop mt rest (i + 1) out

/-- Embedding of _micro_tests_run: run the loop over the whole catalog
starting from index 0 with out = 0, then print the summary line
(count -out, singular word iff out == -1) unless quiet, and return
-out. -/
def _micro_tests_run (mt : MicroTests) (catalog : List MicroTest) : RunRes :=
  let r := _micro_tests_run_loop mt catalog 0 0
  { ret := -r.1
    executed := r.2.1
    lines := r.2.2 ++ (if mt.quiet then [] else [OutLine.summary (-r.1) (r.1 == -1)]) }

/-- Scan of the for loop inside _micro_tests_get_next_test: walk the
slots from index i upward and return the index and descriptor of the
first slot passing the validity-and-filter check. -/
def _micro_tests_scan (mt : MicroTests) :
    List MicroTest → Nat → Option (Nat × MicroTest)
  | [], _ => none
  | t :: rest, i =>
    if _micro_tests_should_run mt t then some (i, t)
    else _micro_tests_scan mt rest (i + 1)

/-- Embedding of _micro_tests_get_next_test: under the lock, scan
forward from the shared cursor cur; on a match the shared cursor is
incremented by one (micro_tests_current++ in the source, NOT set past
the matched index) and the matched descriptor (modelled by its index
and value, standing for the returned pointer) is handed out; with no
match the cursor is left unchanged and none is returned.  The result is
(claimed descriptor, new cursor value). -/
def _micro_tests_get_next_test (mt : MicroTests) (catalog : List MicroTest)
    (cur : Nat) : Option (Nat × MicroTest) × Nat :=
  match _micro_tests_scan mt (catalog.drop cur) cur with
  | some (i, t) => (some (i, t), cur + 1)
  | none => (none, cur)

/-- Result of one worker thread: the accumulated return value ret, the
shared cursor after the worker finished, the claimed (index, descriptor)
pairs in claim order, and the lines the worker printed. -/
structure ThreadRes where
  ret : Int
  cursor : Nat
  claimed : List (Nat × MicroTest)
  lines : List OutLine
  deriving DecidableEq, Repr

/-- Loop of _micro_tests_thread, with fuel bounding the number of
claims (each successful claim needs cursor < catalog length and moves
the cursor up by one, so catalog.length + 1 fuel is always enough).
Each iteration claims the next test; a claimed descriptor whose marker
is not the sentinel makes the worker return -1 at once; otherwise the
callback runs, its value is added to the worker accumulator ret, and
the status line is chosen by the sign of the ACCUMULATED ret (ret < 0
after the addition prints FAILED, else OK unless quiet), as in the
source.  Debug thread-id prints are not modelled. -/
def _micro_tests_thread_go (mt : MicroTests) (catalog : List MicroTest) :
    Nat → Nat → Int → ThreadRes
  | 0, cur, ret => ⟨ret, cur, [], []⟩
  | fuel + 1, cur, ret =>
    match _micro_tests_get_next_test mt catalog cur with
    | (none, cur2) => ⟨ret, cur2, [], []⟩
    | (some (i, t), cur2) =>
      if t.marker ≠ SENTINEL then ⟨-1, cur2, [(i, t)], []⟩
      else
        let line : List OutLine :=
          if ret + t.ret < 0 then [OutLine.failed t.test_suite t.test_name]
          else if mt.quiet then [] else [OutLine.ok t.test_suite t.test_name]
        let r := _micro_tests_thread_go mt catalog fuel cur2 (ret + t.ret)
        ⟨r.ret, r.cursor, (i, t) :: r.claimed, line ++ r.lines⟩

/-- Embedding of _micro_tests_thread for one worker, started with the
shared cursor at cur and its accumulator at 0. -/
def _micro_tests_thread (mt : MicroTests) (catalog : List MicroTest)
    (cur : Nat) : ThreadRes :=
  _micro_tests_thread_go mt catalog (catalog.length + 1) cur 0

/-- Spawn-and-join of _micro_tests_run_multithreaded under the
serialized schedule in which each worker runs to completion before the
next starts (a legal interleaving: claims are atomic and callbacks are
deterministic and independent; the multiset of claims, and hence the
summed return value, is the same under every schedule).  Returns the
sum of the workers' return values, the final cursor, all claimed pairs
and all lines. -/
def _micro_tests_spawn_join (mt : MicroTests) (catalog : List MicroTest) :
    Nat → Nat → Int × Nat × List (Nat × MicroTest) × List OutLine
  | 0, cur => (0, cur, [], [])
  | n + 1, cur =>
    let w := _micro_tests_thread mt catalog cur
    let r := _micro_tests_spawn_join mt catalog n w.cursor
    (w.ret + r.1, r.2.1, w.claimed ++ r.2.2.1, w.lines ++ r.2.2.2)

/-- Embedding of _micro_tests_run_multithreaded: print the
thread-count banner unless banners are off, run thread_number workers
over the shared cursor initialized to 0, sum their return values into
ret, print the summary (count -ret, singular word iff ret == -1) unless
quiet, and return ret (the source returns ret itself, not -ret). -/
def _micro_tests_run_multithreaded (mt : MicroTests)
    (catalog : List MicroTest) : RunRes :=
  let banner : List OutLine := if mt.print_banner then [OutLine.banner] else []
  let r := _micro_tests_spawn_join mt catalog mt.thread_number.toNat 0
  { ret := r.1
    executed := r.2.2.1.map Prod.fst
    lines := banner ++ r.2.2.2 ++
      (if mt.quiet then [] else [OutLine.summary (-r.1) (r.1 == -1)]) }

/-- Embedding of micro_tests_show_list: one entry line per slot passing
the validity-and-filter check; no execution. -/
def micro_tests_show_list (mt : MicroTests) : List MicroTest → List OutLine
  | [] => []
  | t :: rest =>
    if _micro_tests_should_run mt t then
      OutLine.entry t.test_suite t.test_name :: micro_tests_show_list mt rest
    else micro_tests_show_list mt rest

/-- Loop of micro_tests_parse_args over argv[1..], threading the
settings record; options are recognized by strcmp against the literal
option strings, in the order of the source's if/else chain (the
multithreaded build, as in test.c, so --multithreaded and --threads are
compiled in); none models the negative return on a bad or missing
argument (the accompanying stderr usage text is not modelled). -/
def micro_tests_parse_args_loop (mt : MicroTests) :
    List (List Nat) → Option MicroTests
  | [] => some mt
  | a :: rest =>
    if _micro_tests_strcmp a (cstr ("--help")) == 0
        || _micro_tests_strcmp a (cstr ("-h")) == 0 then
      micro_tests_parse_args_loop { mt with print_help := true } rest
    else if _micro_tests_strcmp a (cstr ("--list")) == 0 then
      micro_tests_parse_args_loop { mt with show_list := true } rest
    else if _micro_tests_strcmp a (cstr ("--suite")) == 0 then
      match rest with
      | [] => none
      | v :: rest2 =>
        micro_tests_parse_args_loop { mt with run_suite := some v } rest2
    else if _micro_tests_strcmp a (cstr ("--test")) == 0 then
      match rest with
      | [] => none
      | v :: rest2 =>
        micro_tests_parse_args_loop { mt with run_test := some v } rest2
    else if _micro_tests_strcmp a (cstr ("--no-banner")) == 0 then
      micro_tests_parse_args_loop { mt with print_banner := false } rest
    else if _micro_tests_strcmp a (cstr ("--debug")) == 0 then
      micro_tests_parse_args_loop { mt with debug := true } rest
    else if _micro_tests_strcmp a (cstr ("--quiet")) == 0 then
      micro_tests_parse_args_loop { mt with quiet := true } rest
    else if _micro_tests_strcmp a (cstr ("--multithreaded")) == 0 then
      micro_tests_parse_args_loop { mt with run_multithreaded := true } rest
    else if _micro_tests_strcmp a (cstr ("--threads")) == 0 then
      match rest with
      | [] => none
      | v :: rest2 =>
        if atoi v ≤ 0 then none
        else micro_tests_parse_args_loop { mt with thread_number := atoi v } rest2
    else none

/-- Embedding of micro_tests_parse_args.  The argument list models
argv[1..] (the source's loop starts at i = 1); the C function returns 0
and fills the record (modelled some), or returns -1 (modelled none). -/
def micro_tests_parse_args (args : List (List Nat)) : Option MicroTests :=
  micro_tests_parse_args_loop micro_tests_defaults args

/-- Embedding of micro_tests_run: parse the arguments (a failure
returns 1 before any test executes); help mode prints the help text and
returns 0; list mode prints the list and returns 0; otherwise print the
banner unless disabled (debug pointer prints are not modelled) and
dispatch to the multithreaded runner when run_multithreaded is set with
a positive thread_number, else to the sequential runner. -/
def micro_tests_run (args : List (List Nat)) (catalog : List MicroTest) :
    RunRes :=
  match micro_tests_parse_args args with
  | none => { ret := 1, executed := [], lines := [] }
  | some mt =>
    if mt.print_help then { ret := 0, executed := [], lines := [OutLine.help] }
    else if mt.show_list then
      { ret := 0, executed := [], lines := micro_tests_show_list mt catalog }
    else
      let banner : List OutLine :=
        if mt.print_banner then [OutLine.banner] else []
      if mt.run_multithreaded && mt.thread_number > 0 then
        let r := _micro_tests_run_multithreaded mt catalog
        { r with lines := banner ++ r.lines }
      else
        let r := _micro_tests_run mt catalog
        { r with lines := banner ++ r.lines }

/-- An all-zero descriptor, standing for link-time padding bytes in the
catalog region (its marker 0 differs from the sentinel). -/
def MICRO_TEST_NULL : MicroTest :=
  { marker := 0
    test_suite := []
    test_name := []
    function_name := []
    file_name := []
    line_number := 0
    ret := 0 }

/-- Helper building a valid descriptor with the given names and return
value, as the TEST macro would lay it out. -/
def mkTest (suite name : String) (r : Int) : MicroTest :=
  { marker := SENTINEL
    test_suite := cstr suite
    test_name := cstr name
    function_name := cstr suite ++ [95] ++ cstr name
    file_name := cstr ("test.c")
    line_number := 1
    ret := r }

/-- A valid passing test (callback returns 0). -/
def t_good : MicroTest := mkTest ("base_tests") ("simple_assertion") 0

/-- A valid failing test (callback returns -1, as TEST_FAILED does). -/
def t_fail : MicroTest := mkTest ("base_tests") ("failing_case") (-1)

/-- A valid test whose callback returns the positive value 1. -/
def t_pos : MicroTest := mkTest ("base_tests") ("positive_return") 1

/-- A valid test whose callback returns the positive value 2. -/
def t_p2 : MicroTest := mkTest ("base_tests") ("positive_two") 2

/-- Specification-side description of the per-test status lines of the
sequential runner, written from the spec's words: one FAILED line for a
negative return regardless of quiet, one OK line for a non-negative
return unless quiet, applied to the executed descriptors in order. -/
def lines_spec (mt : MicroTests) : List MicroTest → List OutLine
  | [] => []
  | t :: rest =>
    (if t.ret < 0 then [OutLine.failed t.test_suite t.test_name]
     else if mt.quiet then [] else [OutLine.ok t.test_suite t.test_name]) ++
    lines_spec mt rest

/-- Specification-side description of a worker's status lines: the line
of each executed descriptor is chosen by the sign of the running
cumulative total acc after adding that descriptor's return value
(FAILED when negative, else OK unless quiet). -/
def cumulative_lines (quiet : Bool) : List MicroTest → Int → List OutLine
  | [], _ => []
  | t :: rest, acc =>
    (if acc + t.ret < 0 then [OutLine.failed t.test_suite t.test_name]
     else if quiet then [] else [OutLine.ok t.test_suite t.test_name]) ++
    cumulative_lines quiet rest (acc + t.ret)

/-- A descriptor passing the validity-and-filter check has the sentinel
marker. -/
theorem should_run_marker {mt : MicroTests} {t : MicroTest}
    (h : _micro_tests_should_run mt t = true) : t.marker = SENTINEL := by
  simp only [_micro_tests_should_run, Bool.and_eq_true, beq_iff_eq] at h
  exact h.1.1

/-- A descriptor found by the claim scan passes the validity-and-filter
check. -/
theorem scan_should_run (mt : MicroTests) :
    ∀ (l : List MicroTest) (i j : Nat) (t : MicroTest),
      _micro_tests_scan mt l i = some (j, t) →
        _micro_tests_should_run mt t = true
  | [], _, _, _, h => by simp [_micro_tests_scan] at h
  | u :: rest, i, j, t, h => by
    by_cases hu : _micro_tests_should_run mt u
    · simp only [_micro_tests_scan, hu, if_true, Option.some.injEq,
        Prod.mk.injEq] at h
      exact h.2 ▸ hu
    · simp only [_micro_tests_scan, hu, if_false] at h
      exact scan_should_run mt rest (i + 1) j t h

/-- A descriptor claimed by _micro_tests_get_next_test passes the
validity-and-filter check. -/
theorem get_next_should_run {mt : MicroTests} {catalog : List MicroTest}
    {cur i : Nat} {t : MicroTest}
    (h : (_micro_tests_get_next_test mt catalog cur).1 = some (i, t)) :
    _micro_tests_should_run mt t = true := by
  unfold _micro_tests_get_next_test at h
  rcases hs : _micro_tests_scan mt (catalog.drop cur) cur with _ | ⟨j, u⟩
  · rw [hs] at h
    simp at h
  · rw [hs] at h
    simp only [Option.some.injEq, Prod.mk.injEq] at h
    exact h.2 ▸ scan_should_run mt (catalog.drop cur) cur j u hs

/-- The executed indices of the sequential loop are exactly the indices
(offset by the starting index) of the slots passing the
validity-and-filter check, in order. -/
theorem run_loop_executed (mt : MicroTests) :
    ∀ (cat : List MicroTest) (i : Nat) (out : Int),
      (_micro_tests_run_loop mt cat i out).2.1
        = ((List.enumFrom i cat).filter
            fun p => _micro_tests_should_run mt p.2).map Prod.fst
  | [], _, _ => rfl
  | t :: rest, i, out => by
    by_cases h : _micro_tests_should_run mt t
    · simp [_micro_tests_run_loop, h, List.enumFrom,
        run_loop_executed mt rest (i + 1) (out + t.ret)]
    · simp [_micro_tests_run_loop, h, List.enumFrom,
        run_loop_executed mt rest (i + 1) out]

/-- The accumulator of the sequential loop ends at its starting value
plus the sum of the executed callbacks' return values. -/
theorem run_loop_out (mt : MicroTests) :
    ∀ (cat : List MicroTest) (i : Nat) (out : Int),
      (_micro_tests_run_loop mt cat i out).1
        = out + ((cat.filter (_micro_tests_should_run mt)).map
            MicroTest.ret).sum
  | [], _, _ => by simp [_micro_tests_run_loop]
  | t :: rest, i, out => by
    by_cases h : _micro_tests_should_run mt t
    · simp [_micro_tests_run_loop, h, run_loop_out mt rest (i + 1) (out + t.ret)]
      ring
    · simp [_micro_tests_run_loop, h, run_loop_out mt rest (i + 1) out]

/-- The status lines of the sequential loop are the per-test lines of
the executed descriptors, in order. -/
theorem run_loop_lines (mt : MicroTests) :
    ∀ (cat : List MicroTest) (i : Nat) (out : Int),
      (_micro_tests_run_loop mt cat i out).2.2
        = lines_spec mt (cat.filter (_micro_tests_should_run mt))
  | [], _, _ => rfl
  | t :: rest, i, out => by
    by_cases h : _micro_tests_should_run mt t
    · simp [_micro_tests_run_loop, h, lines_spec,
        run_loop_lines mt rest (i + 1) (out + t.ret)]
    · simp [_micro_tests_run_loop, h,
        run_loop_lines mt rest (i + 1) out]

/-- The lines printed by a worker loop are determined by the claimed
descriptors through the cumulative-sign rule, whatever the fuel, the
cursor and the starting accumulator. -/
theorem thread_go_lines (mt : MicroTests) (catalog : List MicroTest) :
    ∀ (fuel cur : Nat) (r0 : Int),
      (_micro_tests_thread_go mt catalog fuel cur r0).lines
        = cumulative_lines mt.quiet
            ((_micro_tests_thread_go mt catalog fuel cur r0).claimed.map
              Prod.snd) r0
  | 0, _, _ => rfl
  | fuel + 1, cur, r0 => by
    rcases h : _micro_tests_get_next_test mt catalog cur with ⟨o, cur2⟩
    rcases o with _ | ⟨i, t⟩
    · simp [_micro_tests_thread_go, h, cumulative_lines]
    · have hm : t.marker = SENTINEL :=
        should_run_marker (get_next_should_run (by rw [h]))
      simp [_micro_tests_thread_go, h, hm, cumulative_lines,
        thread_go_lines mt catalog fuel cur2 (r0 + t.ret)]

/-- C1 (code bug): the concurrent claim function does not advance the
shared cursor past the matched index.  On the catalog [padding slot,
valid test] the first claim matches index 1 but only moves the cursor
from 0 to 1, so the second claim hands out index 1 again, and a full
multithreaded run executes the descriptor at index 1 twice. -/
theorem C1_claim_duplicated :
    _micro_tests_get_next_test micro_tests_defaults [MICRO_TEST_NULL, t_good] 0
        = (some (1, t_good), 1) ∧
    _micro_tests_get_next_test micro_tests_defaults [MICRO_TEST_NULL, t_good] 1
        = (some (1, t_good), 2) ∧
    (_micro_tests_run_multithreaded micro_tests_defaults
        [MICRO_TEST_NULL, t_good]).executed = [1, 1] := by
  decide

/-- C2 (code bug): on a catalog with one failing test the sequential
runner returns the failure count 1 while the multithreaded runner
returns -1 (it returns the summed worker accumulators without negating
them), so the two aggregate results differ even with deterministic
callbacks. -/
theorem C2_runners_disagree :
    (_micro_tests_run micro_tests_defaults [t_fail]).ret = 1 ∧
    (_micro_tests_run_multithreaded micro_tests_defaults [t_fail]).ret = -1 := by
  decide

/-- C3 (code bug): the sequential runner adds every callback return
value into its accumulator (out += ret), so a positive return is not
treated as contributing nothing: a single test returning +1 makes the
runner return -1 (a negative result), and a +1 test next to a -1 test
makes it return 0 although a test failed. -/
theorem C3_positive_return_miscounted :
    (_micro_tests_run micro_tests_defaults [t_pos]).ret = -1 ∧
    (_micro_tests_run micro_tests_defaults [t_pos, t_fail]).ret = 0 := by
  decide

/-- C4 (counterexample): with quiet mode set and a catalog holding one
passing test, the sequential runner emits no summary line at all (its
whole output is empty), refuting that the summary is always emitted
including when quiet mode is set. -/
theorem C4_quiet_drops_summary :
    (_micro_tests_run { micro_tests_defaults with quiet := true } [t_good]).lines
      = [] := by
  decide

/-- C4 (amended): the sequential runner emits one status line per
executed test (FAILED for a negative return regardless of quiet, OK for
a non-negative return unless quiet), followed by the summary line with
the negated accumulator as count, emitted only when quiet mode is NOT
set. -/
theorem C4_lines_characterized (mt : MicroTests) (catalog : List MicroTest) :
    (_micro_tests_run mt catalog).lines
      = lines_spec mt (catalog.filter (_micro_tests_should_run mt)) ++
        (if mt.quiet then [] else
          [OutLine.summary
            (-((catalog.filter (_micro_tests_should_run mt)).map
                MicroTest.ret).sum)
            (((catalog.filter (_micro_tests_should_run mt)).map
                MicroTest.ret).sum == -1)]) := by
  unfold _micro_tests_run
  simp [run_loop_lines, run_loop_out]

/-- Evaluation of the option chain on a literal --threads argument: the
next argument is converted with atoi; a non-positive conversion fails
the parse, otherwise the loop continues with the converted thread
number. -/
theorem parse_loop_threads (mt : MicroTests) (v : List Nat)
    (rest : List (List Nat)) :
    micro_tests_parse_args_loop mt (cstr ("--threads") :: v :: rest)
      = if atoi v ≤ 0 then none
        else micro_tests_parse_args_loop
          { mt with thread_number := atoi v } rest := rfl

/-- C5 (counterexample): the argument string 3x is not a positive
integer, yet micro_tests_parse_args accepts --threads 3x and records
the thread number 3 (atoi stops at the first non-digit). -/
theorem C5_noninteger_threads_accepted :
    (micro_tests_parse_args [cstr ("--threads"), cstr ("3x")]).map
      (fun mt => mt.thread_number) = some 3 := by
  decide

/-- C5 (amended): --threads fails the parse when its argument is
missing or when the atoi conversion of the argument (leading
whitespace, optional sign, leading digit run) is not positive, and
succeeds with that conversion as thread count otherwise; any parse
failure makes micro_tests_run return 1 with no test executed and no
line emitted. -/
theorem C5_threads_parsing (v : List Nat) (rest : List (List Nat))
    (args : List (List Nat)) (catalog : List MicroTest) :
    micro_tests_parse_args [cstr ("--threads")] = none ∧
    (atoi v ≤ 0 →
      micro_tests_parse_args (cstr ("--threads") :: v :: rest) = none) ∧
    (0 < atoi v →
      micro_tests_parse_args (cstr ("--threads") :: v :: rest)
        = micro_tests_parse_args_loop
            { micro_tests_defaults with thread_number := atoi v } rest) ∧
    (micro_tests_parse_args args = none →
      micro_tests_run args catalog
        = { ret := 1, executed := [], lines := [] }) := by
  refine ⟨by decide, ?_, ?_, ?_⟩
  · intro h
    rw [micro_tests_parse_args, parse_loop_threads, if_pos h]
  · intro h
    rw [micro_tests_parse_args, parse_loop_threads, if_neg (not_le.mpr h)]
  · intro h
    rw [micro_tests_run, h]

/-- C5 (witness): at the concrete argument vector --threads 0 the parse
fails and micro_tests_run returns 1 without executing anything. -/
theorem C5_threads_parsing_witness :
    micro_tests_parse_args [cstr ("--threads"), cstr ("0")] = none ∧
    micro_tests_run [cstr ("--threads"), cstr ("0")] []
      = { ret := 1, executed := [], lines := [] } :=
  ⟨(C5_threads_parsing (cstr ("0")) [] [] []).2.1 (by decide),
   (C5_threads_parsing (cstr ("0")) [] [cstr ("--threads"), cstr ("0")]
      []).2.2.2 (by decide)⟩

/-- C6: _micro_tests_strcmp returns 0 exactly when the two strings have
identical length and byte sequence; the result at the first mismatching
byte is fixed by that byte pair alone, whatever the remaining tails
hold (the short-circuit; never reading past a terminator is inherent in
the structural recursion over the byte lists); and filtering by base
does not compare equal to a suite named base_tests. -/
theorem C6_strcmp_exact_match :
    (∀ s1 s2 : List Nat, _micro_tests_strcmp s1 s2 = 0 ↔ s1 = s2) ∧
    (∀ (p t1 t2 : List Nat) (c1 c2 : Nat), c1 ≠ c2 →
      _micro_tests_strcmp (p ++ c1 :: t1) (p ++ c2 :: t2)
        = if c1 > c2 then 1 else -1) ∧
    _micro_tests_strcmp (cstr ("base")) (cstr ("base_tests")) ≠ 0 := by
  refine ⟨?_, ?_, by decide⟩
  · intro s1
    induction s1 with
    | nil =>
      intro s2
      cases s2 <;> simp [_micro_tests_strcmp]
    | cons c1 r1 ih =>
      intro s2
      cases s2 with
      | nil => simp [_micro_tests_strcmp]
      | cons c2 r2 =>
        by_cases hc : c1 = c2
        · subst hc
          simp [_micro_tests_strcmp, ih r2]
        · simp only [_micro_tests_strcmp, if_pos hc, List.cons.injEq]
          split <;> simp [hc]
  · intro p
    induction p with
    | nil =>
      intro t1 t2 c1 c2 h
      simp [_micro_tests_strcmp, h]
    | cons d p ih =>
      intro t1 t2 c1 c2 h
      simpa [_micro_tests_strcmp] using ih t1 t2 c1 c2 h

/-- C6 (witness): the short-circuit conjunct applied at the concrete
strings ba and bz (common prefix b, mismatch 97 versus 122). -/
theorem C6_strcmp_witness :
    _micro_tests_strcmp ([98] ++ 97 :: []) ([98] ++ 122 :: [])
      = if 97 > 122 then 1 else -1 :=
  C6_strcmp_exact_match.2.1 [98] [] [] 97 122 (by decide)

/-- C7: a slot whose marker differs from the sentinel is never touched:
every index executed by the sequential runner points at a slot with the
sentinel marker, every descriptor handed out by the concurrent claim
function carries the sentinel marker, and listing mode prints the same
lines as it would on the catalog restricted to sentinel-marked slots. -/
theorem C7_invalid_marker_never_used :
    (∀ (mt : MicroTests) (catalog : List MicroTest) (i : Nat),
      i ∈ (_micro_tests_run mt catalog).executed →
        (catalog.getD i MICRO_TEST_NULL).marker = SENTINEL) ∧
    (∀ (mt : MicroTests) (catalog : List MicroTest) (cur i : Nat)
        (t : MicroTest),
      (_micro_tests_get_next_test mt catalog cur).1 = some (i, t) →
        t.marker = SENTINEL) ∧
    (∀ (mt : MicroTests) (catalog : List MicroTest),
      micro_tests_show_list mt catalog
        = micro_tests_show_list mt
            (catalog.filter fun t => t.marker == SENTINEL)) := by
  refine ⟨?_, ?_, ?_⟩
  · intro mt catalog i hi
    have hex : (_micro_tests_run mt catalog).executed
        = ((List.enumFrom 0 catalog).filter
            fun p => _micro_tests_should_run mt p.2).map Prod.fst := by
      unfold _micro_tests_run
      simp [run_loop_executed]
    rw [hex] at hi
    obtain ⟨⟨j, t⟩, hmem, hj⟩ := List.mem_map.mp hi
    obtain ⟨henum, hP⟩ := List.mem_filter.mp hmem
    have hget : catalog[j]? = some t :=
      List.mem_enum_iff_getElem?.mp (by simpa [List.enum] using henum)
    have hj2 : j = i := hj
    subst hj2
    rw [List.getD_eq_getD_get?, List.get?_eq_getElem?, hget]
    exact should_run_marker (by simpa using hP)
  · intro mt catalog cur i t h
    exact should_run_marker (get_next_should_run h)
  · intro mt catalog
    induction catalog with
    | nil => rfl
    | cons t rest ih =>
      by_cases h : _micro_tests_should_run mt t
      · have hm : (t.marker == SENTINEL) = true := by
          simpa using should_run_marker h
        simp [micro_tests_show_list, h, List.filter_cons, hm, ih]
      · rcases hm : t.marker == SENTINEL with _ | _
        · simp [micro_tests_show_list, h, List.filter_cons, hm, ih]
        · simp [micro_tests_show_list, h, List.filter_cons, hm, ih]

/-- C7 (witness): on the one-element catalog holding a valid test, the
executed index 0 and the claimed descriptor both carry the sentinel
marker. -/
theorem C7_invalid_marker_witness :
    ([t_good].getD 0 MICRO_TEST_NULL).marker = SENTINEL ∧
    t_good.marker = SENTINEL :=
  ⟨C7_invalid_marker_never_used.1 micro_tests_defaults [t_good] 0 (by decide),
   C7_invalid_marker_never_used.2.1 micro_tests_defaults [t_good] 0 0 t_good
     (by decide)⟩

/-- C8: the sequential runner executes exactly the valid, matching
catalog entries, each exactly once, in catalog index order (its
executed-index trace equals the filtered enumeration of the catalog in
order); the catalog length models the count derived from the section
bounds as (stop - start) / sizeof(MicroTest). -/
theorem C8_sequential_exactly_once (mt : MicroTests)
    (catalog : List MicroTest) :
    (_micro_tests_run mt catalog).executed
      = (catalog.enum.filter
          fun p => _micro_tests_should_run mt p.2).map Prod.fst := by
  unfold _micro_tests_run
  simp [run_loop_executed, List.enum]

/-- All lines of listing mode go to the standard output stream. -/
theorem show_list_no_stderr (mt : MicroTests) :
    ∀ catalog : List MicroTest,
      (micro_tests_show_list mt catalog).all (fun l => !l.to_stderr) = true
  | [] => rfl
  | t :: rest => by
    have ih := show_list_no_stderr mt rest
    by_cases h : _micro_tests_should_run mt t
    · simp only [micro_tests_show_list, h, if_true, List.all_cons, ih,
        Bool.and_true]
      rfl
    · simp only [micro_tests_show_list, h, if_false]
      exact ih

/-- C9: when the parsed configuration selects help mode or listing
mode, micro_tests_run returns 0, invokes no test callback, and writes
only to the standard output stream. -/
theorem C9_help_list_no_execution (args : List (List Nat))
    (catalog : List MicroTest) (mt : MicroTests)
    (hp : micro_tests_parse_args args = some mt)
    (hmode : mt.print_help = true ∨ mt.show_list = true) :
    (micro_tests_run args catalog).ret = 0 ∧
    (micro_tests_run args catalog).executed = [] ∧
    (micro_tests_run args catalog).lines.all (fun l => !l.to_stderr)
      = true := by
  rw [micro_tests_run, hp]
  by_cases hh : mt.print_help = true
  · simp [hh, OutLine.to_stderr]
  · have hl : mt.show_list = true := hmode.resolve_left hh
    simp [hh, hl, show_list_no_stderr]

/-- C9 (witness): running with the single argument --list over a
one-test catalog returns 0, executes nothing, and prints only to
stdout. -/
theorem C9_help_list_witness :
    (micro_tests_run [cstr ("--list")] [t_good]).ret = 0 ∧
    (micro_tests_run [cstr ("--list")] [t_good]).executed = [] ∧
    (micro_tests_run [cstr ("--list")] [t_good]).lines.all
      (fun l => !l.to_stderr) = true :=
  C9_help_list_no_execution [cstr ("--list")] [t_good]
    { micro_tests_defaults with show_list := true } (by decide)
    (Or.inr (by decide))

/-- C10 (counterexample): a worker that first runs a test returning -1
(cumulative total -1, negative) and then a test whose callback returns
the non-negative value 2 prints the second line as OK, not FAILED: the
positive return pulls the cumulative total back to 1, so a negative
cumulative total does not force every subsequent line to FAILED.  (The
same worker over -1 then 0 does print both lines FAILED, showing the
cumulative rather than per-test choice.) -/
theorem C10_positive_return_recovers :
    (_micro_tests_thread micro_tests_defaults [t_fail, t_p2] 0).lines
      = [OutLine.failed (cstr ("base_tests")) (cstr ("failing_case")),
         OutLine.ok (cstr ("base_tests")) (cstr ("positive_two"))] ∧
    (_micro_tests_thread_go micro_tests_defaults [t_fail, t_p2] 1 0 0).ret
      = -1 ∧
    t_p2.ret ≥ 0 ∧
    (_micro_tests_thread micro_tests_defaults [t_fail, t_good] 0).lines
      = [OutLine.failed (cstr ("base_tests")) (cstr ("failing_case")),
         OutLine.failed (cstr ("base_tests")) (cstr ("simple_assertion"))] := by
  decide

/-- C10 (amended): a worker's status line for each executed test is
chosen by the sign of its running cumulative total after adding that
test's return value — FAILED when the total is negative, OK (unless
quiet) otherwise — not by the sign of the individual return value; in
particular a non-negative-returning test is printed FAILED whenever the
cumulative total stays negative. -/
theorem C10_lines_by_cumulative_sign (mt : MicroTests)
    (catalog : List MicroTest) (cur : Nat) :
    (_micro_tests_thread mt catalog cur).lines
      = cumulative_lines mt.quiet
          ((_micro_tests_thread mt catalog cur).claimed.map Prod.snd) 0 :=
  thread_go_lines mt catalog (catalog.length + 1) cur 0
